import Mathlib

/-!
Shallow embedding of the two `std::FILE*` ownership wrappers shipped by the
repository: `class CFile` (src/include/CFile.hpp) and `class cfile`
(src/include/cfile.hpp).

Modelling conventions:
* A `std::FILE *` value is a `Nat` (a pointer as an address); `0` is the
  null pointer, the sentinel meaning "owns nothing".
* The access-mode enum (`CFile::Mode` / `cfile::mode`) is carried by its
  underlying integer value, a `Nat`; `operator|` is bitwise or (`|||`).
* C asserts are modelled explicitly: a function containing an `assert`
  returns `Res α`, where `Res.assertFail` is the contract-violation trap
  taken when the asserted condition is false (checks enabled), and the
  `to_cstring` switch whose default branch is `assert(false)` returns
  `Option String`, `none` being that trap.
* Calls into the platform stdio primitives are made observable: each
  operation returns the list of platform calls it performs (`PCall`),
  recording the handle values passed down.  Platform results (the status
  of `std::fclose`, the stream produced by `std::fopen`, data read) are
  supplied by oracle function parameters, since the platform is an
  external collaborator the wrappers never reimplement.
-/

/-- A call into one of the platform stdio primitives, recording the argument
values the wrapper passes down (handles as raw `Nat` pointer values). -/
inductive PCall where
  | fopen (filename access : String)
  | fclose (handle : Nat)
  | fread (size count handle : Nat)
  | fgetc (handle : Nat)
  | fputc (character : Int) (handle : Nat)
  deriving DecidableEq, Repr

/-- Result of an operation whose source contains an `assert`:
either the assertion trap fires (`assertFail`), or the operation completes,
returning the list of platform calls performed and its value. -/
inductive Res (α : Type) where
  | assertFail
  | ok (calls : List PCall) (val : α)
  deriving DecidableEq, Repr

/-- The state of a `xtr::CFile` object: its single data member
`std::FILE *stream` (CFile.hpp line 28), as a raw pointer value. -/
structure CFile where
  stream : Nat
  deriving DecidableEq, Repr

namespace CFile

/-- `CFile::Mode::Read` (CFile.hpp line 33). -/
def Mode.Read : Nat := 0b00000001

/-- `CFile::Mode::Write` (CFile.hpp line 34). -/
def Mode.Write : Nat := 0b00000010

/-- `CFile::Mode::Append` (CFile.hpp line 35). -/
def Mode.Append : Nat := 0b00000100

/-- `CFile::Mode::Binary` (CFile.hpp line 36). -/
def Mode.Binary : Nat := 0b00001000

/-- `CFile::Mode::Extended` (CFile.hpp line 37). -/
def Mode.Extended : Nat := 0b00010000

/-- `CFile::to_cstring(Mode)` (CFile.hpp lines 52-94): a switch over the
twelve enumerated combinations; the fall-through default is `assert(false)`,
modelled as `none`. -/
def to_cstring (mode : Nat) : Option String :=
  if mode = Mode.Read then some "r"
  else if mode = Mode.Write then some "w"
  else if mode = Mode.Append then some "a"
  else if mode = (Mode.Read ||| Mode.Extended) then some "r+"
  else if mode = (Mode.Write ||| Mode.Extended) then some "w+"
  else if mode = (Mode.Append ||| Mode.Extended) then some "a+"
  else if mode = (Mode.Read ||| Mode.Binary) then some "rb"
  else if mode = (Mode.Write ||| Mode.Binary) then some "wb"
  else if mode = (Mode.Append ||| Mode.Binary) then some "ab"
  else if mode = (Mode.Read ||| Mode.Binary ||| Mode.Extended) then some "rb+"
  else if mode = (Mode.Write ||| Mode.Binary ||| Mode.Extended) then some "wb+"
  else if mode = (Mode.Append ||| Mode.Binary ||| Mode.Extended) then some "ab+"
  else none

/-- The default constructor `explicit CFile()` (CFile.hpp line 137):
`stream{}` zero-initializes the member to the null pointer. -/
def mkDefault : CFile := ⟨0⟩

/-- The adopting constructor `explicit CFile(std::FILE *other)`
(CFile.hpp lines 140-141): stores the given pointer value unchanged.
The companion overload `CFile(std::nullptr_t) = delete` (line 144) rejects
the `nullptr` literal at compile time, but any runtime `FILE*` value,
including a null one, binds to this overload and is stored unchecked. -/
def ofHandle (other : Nat) : CFile := ⟨other⟩

/-- The move constructor `CFile(CFile &&other)` (CFile.hpp lines 164-165):
`stream{std::exchange(other.stream, nullptr)}`.  Returns the pair
(constructed object, source after the move); no platform call is made. -/
def moveCtor (other : CFile) : CFile × CFile :=
  (⟨other.stream⟩, ⟨0⟩)

/-- The move assignment `CFile &operator=(CFile &&other)` (CFile.hpp lines
171-177): if the destination holds a non-null stream it is passed to
`std::fclose` (status discarded), then the source's stream is exchanged in.
Returns (destination after, source after, platform calls performed). -/
def moveAssign (self other : CFile) : CFile × CFile × List PCall :=
  (⟨other.stream⟩, ⟨0⟩,
    if self.stream ≠ 0 then [PCall.fclose self.stream] else [])

/-- The destructor `~CFile()` (CFile.hpp lines 180-185): passes the stream
to `std::fclose` when non-null, otherwise does nothing.  Returns the list
of platform calls performed. -/
def destruct (self : CFile) : List PCall :=
  if self.stream ≠ 0 then [PCall.fclose self.stream] else []

/-- `int CFile::reset()` (CFile.hpp lines 188-195).  `closeStatus` is the
platform oracle giving the status `std::fclose` reports for a handle.
Returns (status result, object after, platform calls performed). -/
def reset (closeStatus : Nat → Int) (self : CFile) : Int × CFile × List PCall :=
  if self.stream ≠ 0 then
    (closeStatus self.stream, ⟨0⟩, [PCall.fclose self.stream])
  else
    (0, self, [])

/-- `int CFile::reset(std::FILE *other)` (CFile.hpp lines 198-205): closes
the currently held stream when non-null, then installs `other` unchecked.
The overload `reset(std::nullptr_t) = delete` (line 208) rejects only the
`nullptr` literal; a runtime-null `FILE*` is installed as-is. -/
def resetPtr (closeStatus : Nat → Int) (other : Nat) (self : CFile) :
    Int × CFile × List PCall :=
  if self.stream ≠ 0 then
    (closeStatus self.stream, ⟨other⟩, [PCall.fclose self.stream])
  else
    (0, ⟨other⟩, [])

/-- `std::FILE *CFile::release()` (CFile.hpp lines 211-215): returns the
current stream and nulls the member; no platform call is made.
Returns (returned handle, object after, platform calls performed). -/
def release (self : CFile) : Nat × CFile × List PCall :=
  (self.stream, ⟨0⟩, [])

/-- The emptiness comparison `operator==(const CFile &, std::nullptr_t)`
(CFile.hpp lines 223-225). -/
def eqNullptr (object : CFile) : Bool :=
  object.stream = 0

/-- `CFile &CFile::fopen(filename, mode)` (CFile.hpp lines 245-259),
instantiated at a string access mode (for which `to_cstring` is the
identity, lines 97-104).  The body begins with `assert(stream == nullptr)`;
with checks enabled a non-empty instance traps before any platform call.
`popen` is the platform oracle for `std::fopen`. -/
def fopen (popen : String → String → Nat) (filename access : String)
    (self : CFile) : Res CFile :=
  if self.stream ≠ 0 then Res.assertFail
  else Res.ok [PCall.fopen filename access] ⟨popen filename access⟩

/-- `CFile &CFile::fopen(filename, mode)` (CFile.hpp lines 245-259),
instantiated at a `Mode` access mode: after the emptiness assert, the mode
is translated by `to_cstring(Mode)`, whose default branch is
`assert(false)`; only a successfully translated string reaches
`std::fopen`. -/
def fopenMode (popen : String → String → Nat) (filename : String)
    (mode : Nat) (self : CFile) : Res CFile :=
  if self.stream ≠ 0 then Res.assertFail
  else
    match to_cstring mode with
    | none => Res.assertFail
    | some access => Res.ok [PCall.fopen filename access] ⟨popen filename access⟩

/-- `int CFile::fclose()` (CFile.hpp lines 279-283): passes the stream to
`std::fclose` unconditionally (even when null), then nulls the member.
Returns (status result, object after, platform calls performed). -/
def fclose (closeStatus : Nat → Int) (self : CFile) : Int × CFile × List PCall :=
  (closeStatus self.stream, ⟨0⟩, [PCall.fclose self.stream])

/-- `std::size_t CFile::fread(void *, std::size_t, std::size_t)`
(CFile.hpp lines 319-321): forwards directly to
`std::fread(buffer, size, count, stream)` with no precondition check.
`pfread` is the platform oracle giving the transferred element count. -/
def fread (pfread : Nat → Nat → Nat → Nat) (size count : Nat)
    (self : CFile) : Res Nat :=
  Res.ok [PCall.fread size count self.stream] (pfread size count self.stream)

end CFile

/-- The state of a `xtr::cfile` object: its single data member
`std::FILE *m_stream` (cfile.hpp line 28), as a raw pointer value. -/
structure cfile where
  m_stream : Nat
  deriving DecidableEq, Repr

namespace cfile

/-- `cfile::mode::read` (cfile.hpp line 33). -/
def mode.read : Nat := 0b00000001

/-- `cfile::mode::write` (cfile.hpp line 34). -/
def mode.write : Nat := 0b00000010

/-- `cfile::mode::append` (cfile.hpp line 35). -/
def mode.append : Nat := 0b00000100

/-- `cfile::mode::binary` (cfile.hpp line 36). -/
def mode.binary : Nat := 0b00001000

/-- `cfile::mode::extended` (cfile.hpp line 37). -/
def mode.extended : Nat := 0b00010000

/-- `cfile::to_access_mode_string(mode)` (cfile.hpp lines 56-98): a switch
over the twelve enumerated combinations; the fall-through default is
`assert(false)`, modelled as `none`. -/
def to_access_mode_string (access_mode : Nat) : Option String :=
  if access_mode = mode.read then some "r"
  else if access_mode = mode.write then some "w"
  else if access_mode = mode.append then some "a"
  else if access_mode = (mode.read ||| mode.extended) then some "r+"
  else if access_mode = (mode.write ||| mode.extended) then some "w+"
  else if access_mode = (mode.append ||| mode.extended) then some "a+"
  else if access_mode = (mode.read ||| mode.binary) then some "rb"
  else if access_mode = (mode.write ||| mode.binary) then some "wb"
  else if access_mode = (mode.append ||| mode.binary) then some "ab"
  else if access_mode = (mode.read ||| mode.binary ||| mode.extended) then some "rb+"
  else if access_mode = (mode.write ||| mode.binary ||| mode.extended) then some "wb+"
  else if access_mode = (mode.append ||| mode.binary ||| mode.extended) then some "ab+"
  else none

/-- The default constructor `explicit cfile() noexcept = default`
(cfile.hpp line 101).  Unlike `CFile`, the data member
`std::FILE *m_stream` (cfile.hpp line 28) carries no default member
initializer, so plain default-initialization leaves `m_stream`
indeterminate: the constructed object holds whatever the storage held,
modelled by the `indeterminate` parameter. -/
def mkDefault (indeterminate : Nat) : cfile := ⟨indeterminate⟩

/-- The adopting constructor `explicit cfile(std::FILE *other)`
(cfile.hpp line 103): stores the given pointer value unchanged.  The
companion overload `cfile(std::nullptr_t) = delete` (line 105) rejects the
`nullptr` literal at compile time, but any runtime `FILE*` value, including
a null one, binds to this overload and is stored unchecked. -/
def ofHandle (other : Nat) : cfile := ⟨other⟩

/-- The move constructor `cfile(cfile &&other)` (cfile.hpp line 113). -/
def moveCtor (other : cfile) : cfile × cfile :=
  (⟨other.m_stream⟩, ⟨0⟩)

/-- The move assignment `cfile &operator=(cfile &&other)` (cfile.hpp lines
117-126): closes the destination's non-null stream first (status
discarded), then exchanges the source's stream in. -/
def moveAssign (self other : cfile) : cfile × cfile × List PCall :=
  (⟨other.m_stream⟩, ⟨0⟩,
    if self.m_stream ≠ 0 then [PCall.fclose self.m_stream] else [])

/-- The destructor `~cfile()` (cfile.hpp lines 128-134). -/
def destruct (self : cfile) : List PCall :=
  if self.m_stream ≠ 0 then [PCall.fclose self.m_stream] else []

/-- `int cfile::reset()` (cfile.hpp lines 136-146). -/
def reset (closeStatus : Nat → Int) (self : cfile) : Int × cfile × List PCall :=
  if self.m_stream ≠ 0 then
    (closeStatus self.m_stream, ⟨0⟩, [PCall.fclose self.m_stream])
  else
    (0, self, [])

/-- `int cfile::reset(std::FILE *other)` (cfile.hpp lines 148-159); the
overload `reset(std::nullptr_t) = delete` (line 161) rejects only the
`nullptr` literal. -/
def resetPtr (closeStatus : Nat → Int) (other : Nat) (self : cfile) :
    Int × cfile × List PCall :=
  if self.m_stream ≠ 0 then
    (closeStatus self.m_stream, ⟨other⟩, [PCall.fclose self.m_stream])
  else
    (0, ⟨other⟩, [])

/-- `std::FILE *cfile::release()` (cfile.hpp lines 163-169). -/
def release (self : cfile) : Nat × cfile × List PCall :=
  (self.m_stream, ⟨0⟩, [])

/-- The emptiness comparison `operator==(const cfile &, std::nullptr_t)`
(cfile.hpp lines 179-181). -/
def eqNullptr (object : cfile) : Bool :=
  object.m_stream = 0

/-- `cfile &cfile::fopen(const char *filename, const Type &mode)`
(cfile.hpp lines 197-205), instantiated at a string access mode (for which
`to_access_mode_string` is the identity, lines 52-54).  The body begins
with `assert(m_stream == nullptr)`. -/
def fopen (popen : String → String → Nat) (filename access : String)
    (self : cfile) : Res cfile :=
  if self.m_stream ≠ 0 then Res.assertFail
  else Res.ok [PCall.fopen filename access] ⟨popen filename access⟩

/-- `int cfile::fclose()` (cfile.hpp lines 215-221): passes the stream to
`std::fclose` unconditionally, then nulls the member. -/
def fclose (closeStatus : Nat → Int) (self : cfile) : Int × cfile × List PCall :=
  (closeStatus self.m_stream, ⟨0⟩, [PCall.fclose self.m_stream])

/-- `int cfile::fgetc()` (cfile.hpp lines 284-286): forwards directly to
`std::fgetc(m_stream)` with no precondition check.  `pfgetc` is the
platform oracle for the character read. -/
def fgetc (pfgetc : Nat → Int) (self : cfile) : Res Int :=
  Res.ok [PCall.fgetc self.m_stream] (pfgetc self.m_stream)

/-- `int cfile::fputc(int character)` (cfile.hpp lines 297-299): forwards
directly to `std::fputc(character, m_stream)` with no precondition check. -/
def fputc (pfputc : Int → Nat → Int) (character : Int) (self : cfile) : Res Int :=
  Res.ok [PCall.fputc character self.m_stream] (pfputc character self.m_stream)

end cfile

/-! ## Claim theorems -/

/-- C1: each of the twelve enumerated flag combinations (Read, Write, Append,
each optionally with Binary and/or Extended) translates to exactly the
canonical string of the documented table, in both implementations; every flag
value outside those twelve combinations hits the switch's `assert(false)`
default (modelled as `none`), and a mode that fails to translate never
reaches the platform `std::fopen` primitive (`fopenMode` traps instead). -/
theorem to_cstring_mode_table :
    (CFile.to_cstring CFile.Mode.Read = some "r" ∧
     CFile.to_cstring CFile.Mode.Write = some "w" ∧
     CFile.to_cstring CFile.Mode.Append = some "a" ∧
     CFile.to_cstring (CFile.Mode.Read ||| CFile.Mode.Extended) = some "r+" ∧
     CFile.to_cstring (CFile.Mode.Write ||| CFile.Mode.Extended) = some "w+" ∧
     CFile.to_cstring (CFile.Mode.Append ||| CFile.Mode.Extended) = some "a+" ∧
     CFile.to_cstring (CFile.Mode.Read ||| CFile.Mode.Binary) = some "rb" ∧
     CFile.to_cstring (CFile.Mode.Write ||| CFile.Mode.Binary) = some "wb" ∧
     CFile.to_cstring (CFile.Mode.Append ||| CFile.Mode.Binary) = some "ab" ∧
     CFile.to_cstring (CFile.Mode.Read ||| CFile.Mode.Binary ||| CFile.Mode.Extended) = some "rb+" ∧
     CFile.to_cstring (CFile.Mode.Write ||| CFile.Mode.Binary ||| CFile.Mode.Extended) = some "wb+" ∧
     CFile.to_cstring (CFile.Mode.Append ||| CFile.Mode.Binary ||| CFile.Mode.Extended) = some "ab+") ∧
    (cfile.to_access_mode_string cfile.mode.read = some "r" ∧
     cfile.to_access_mode_string cfile.mode.write = some "w" ∧
     cfile.to_access_mode_string cfile.mode.append = some "a" ∧
     cfile.to_access_mode_string (cfile.mode.read ||| cfile.mode.extended) = some "r+" ∧
     cfile.to_access_mode_string (cfile.mode.write ||| cfile.mode.extended) = some "w+" ∧
     cfile.to_access_mode_string (cfile.mode.append ||| cfile.mode.extended) = some "a+" ∧
     cfile.to_access_mode_string (cfile.mode.read ||| cfile.mode.binary) = some "rb" ∧
     cfile.to_access_mode_string (cfile.mode.write ||| cfile.mode.binary) = some "wb" ∧
     cfile.to_access_mode_string (cfile.mode.append ||| cfile.mode.binary) = some "ab" ∧
     cfile.to_access_mode_string (cfile.mode.read ||| cfile.mode.binary ||| cfile.mode.extended) = some "rb+" ∧
     cfile.to_access_mode_string (cfile.mode.write ||| cfile.mode.binary ||| cfile.mode.extended) = some "wb+" ∧
     cfile.to_access_mode_string (cfile.mode.append ||| cfile.mode.binary ||| cfile.mode.extended) = some "ab+") ∧
    (∀ m : Nat,
      m ≠ CFile.Mode.Read →
      m ≠ CFile.Mode.Write →
      m ≠ CFile.Mode.Append →
      m ≠ (CFile.Mode.Read ||| CFile.Mode.Extended) →
      m ≠ (CFile.Mode.Write ||| CFile.Mode.Extended) →
      m ≠ (CFile.Mode.Append ||| CFile.Mode.Extended) →
      m ≠ (CFile.Mode.Read ||| CFile.Mode.Binary) →
      m ≠ (CFile.Mode.Write ||| CFile.Mode.Binary) →
      m ≠ (CFile.Mode.Append ||| CFile.Mode.Binary) →
      m ≠ (CFile.Mode.Read ||| CFile.Mode.Binary ||| CFile.Mode.Extended) →
      m ≠ (CFile.Mode.Write ||| CFile.Mode.Binary ||| CFile.Mode.Extended) →
      m ≠ (CFile.Mode.Append ||| CFile.Mode.Binary ||| CFile.Mode.Extended) →
      CFile.to_cstring m = none) ∧
    (∀ m : Nat,
      m ≠ cfile.mode.read →
      m ≠ cfile.mode.write →
      m ≠ cfile.mode.append →
      m ≠ (cfile.mode.read ||| cfile.mode.extended) →
      m ≠ (cfile.mode.write ||| cfile.mode.extended) →
      m ≠ (cfile.mode.append ||| cfile.mode.extended) →
      m ≠ (cfile.mode.read ||| cfile.mode.binary) →
      m ≠ (cfile.mode.write ||| cfile.mode.binary) →
      m ≠ (cfile.mode.append ||| cfile.mode.binary) →
      m ≠ (cfile.mode.read ||| cfile.mode.binary ||| cfile.mode.extended) →
      m ≠ (cfile.mode.write ||| cfile.mode.binary ||| cfile.mode.extended) →
      m ≠ (cfile.mode.append ||| cfile.mode.binary ||| cfile.mode.extended) →
      cfile.to_access_mode_string m = none) ∧
    (∀ (popen : String → String → Nat) (filename : String) (m : Nat),
      CFile.to_cstring m = none →
      CFile.fopenMode popen filename m ⟨0⟩ = Res.assertFail) := by
  refine ⟨by decide, by decide, ?_, ?_, ?_⟩
  · intro m h₁ h₂ h₃ h₄ h₅ h₆ h₇ h₈ h₉ h₁₀ h₁₁ h₁₂
    simp only [CFile.to_cstring, if_neg h₁, if_neg h₂, if_neg h₃, if_neg h₄,
      if_neg h₅, if_neg h₆, if_neg h₇, if_neg h₈, if_neg h₉, if_neg h₁₀,
      if_neg h₁₁, if_neg h₁₂]
  · intro m h₁ h₂ h₃ h₄ h₅ h₆ h₇ h₈ h₉ h₁₀ h₁₁ h₁₂
    simp only [cfile.to_access_mode_string, if_neg h₁, if_neg h₂, if_neg h₃,
      if_neg h₄, if_neg h₅, if_neg h₆, if_neg h₇, if_neg h₈, if_neg h₉,
      if_neg h₁₀, if_neg h₁₁, if_neg h₁₂]
  · intro popen filename m h
    simp [CFile.fopenMode, h]

/-- Witness for C1: the value `3` (`Read | Write`, outside the twelve
enumerated combinations) is rejected by both translation functions and makes
the `Mode`-taking `fopen` trap before any platform call. -/
theorem to_cstring_mode_table_witness :
    CFile.to_cstring 3 = none ∧
    cfile.to_access_mode_string 3 = none ∧
    CFile.fopenMode (fun _ _ => 42) "f.txt" 3 ⟨0⟩ = Res.assertFail := by
  refine ⟨?_, ?_, ?_⟩
  · exact to_cstring_mode_table.2.2.1 3 (by decide) (by decide) (by decide)
      (by decide) (by decide) (by decide) (by decide) (by decide) (by decide)
      (by decide) (by decide) (by decide)
  · exact to_cstring_mode_table.2.2.2.1 3 (by decide) (by decide) (by decide)
      (by decide) (by decide) (by decide) (by decide) (by decide) (by decide)
      (by decide) (by decide) (by decide)
  · exact to_cstring_mode_table.2.2.2.2 (fun _ _ => 42) "f.txt" 3
      (to_cstring_mode_table.2.2.1 3 (by decide) (by decide) (by decide)
        (by decide) (by decide) (by decide) (by decide) (by decide) (by decide)
        (by decide) (by decide) (by decide))

/-- C2: after moving `a` into `b` (move construction or move assignment) the
destination holds exactly the handle `a` held beforehand and `a` is empty;
in move assignment, if the destination already owned a non-sentinel handle
then exactly that prior handle is closed first (one `std::fclose` call on
it), and if it was empty no close call is made — in both implementations. -/
theorem move_transfers_handle :
    ∀ (a b : CFile) (x y : cfile),
      (CFile.moveCtor a).1.stream = a.stream ∧
      (CFile.moveCtor a).2.stream = 0 ∧
      (CFile.moveAssign b a).1.stream = a.stream ∧
      (CFile.moveAssign b a).2.1.stream = 0 ∧
      (b.stream ≠ 0 → (CFile.moveAssign b a).2.2 = [PCall.fclose b.stream]) ∧
      (b.stream = 0 → (CFile.moveAssign b a).2.2 = []) ∧
      (cfile.moveCtor x).1.m_stream = x.m_stream ∧
      (cfile.moveCtor x).2.m_stream = 0 ∧
      (cfile.moveAssign y x).1.m_stream = x.m_stream ∧
      (cfile.moveAssign y x).2.1.m_stream = 0 ∧
      (y.m_stream ≠ 0 → (cfile.moveAssign y x).2.2 = [PCall.fclose y.m_stream]) ∧
      (y.m_stream = 0 → (cfile.moveAssign y x).2.2 = []) := by
  intro a b x y
  refine ⟨rfl, rfl, rfl, rfl, ?_, ?_, rfl, rfl, rfl, rfl, ?_, ?_⟩
  · intro h; simp [CFile.moveAssign, h]
  · intro h; simp [CFile.moveAssign, h]
  · intro h; simp [cfile.moveAssign, h]
  · intro h; simp [cfile.moveAssign, h]

/-- Witness for C2: moving handle 7 into a destination that owns handle 5
closes exactly handle 5; moving into an empty destination closes nothing. -/
theorem move_transfers_handle_witness :
    (CFile.moveAssign ⟨5⟩ ⟨7⟩).2.2 = [PCall.fclose 5] ∧
    (cfile.moveAssign ⟨0⟩ ⟨7⟩).2.2 = [] :=
  ⟨(move_transfers_handle ⟨7⟩ ⟨5⟩ ⟨7⟩ ⟨0⟩).2.2.2.2.1 (by decide),
   (move_transfers_handle ⟨7⟩ ⟨5⟩ ⟨7⟩ ⟨0⟩).2.2.2.2.2.2.2.2.2.2.2 rfl⟩

/-- C3: `release()` returns exactly the handle held beforehand, leaves the
instance empty, and performs no platform call (in particular no close), in
both implementations. -/
theorem release_returns_handle_no_close :
    ∀ (f : CFile) (g : cfile),
      (CFile.release f).1 = f.stream ∧
      (CFile.release f).2.1.stream = 0 ∧
      (CFile.release f).2.2 = [] ∧
      (cfile.release g).1 = g.m_stream ∧
      (cfile.release g).2.1.m_stream = 0 ∧
      (cfile.release g).2.2 = [] :=
  fun _ _ => ⟨rfl, rfl, rfl, rfl, rfl, rfl⟩

/-- C4: the close operation of the consolidated design, `reset()`, is
idempotent: on a non-empty instance it passes the held handle to
`std::fclose`, sets the instance to empty, and returns the platform's close
status; on an already-empty instance it makes no platform call and returns
the success status 0, leaving the state unchanged — in both
implementations, for every platform close-status oracle. -/
theorem reset_close_idempotent :
    ∀ (closeStatus : Nat → Int) (f : CFile) (g : cfile),
      (f.stream ≠ 0 →
        CFile.reset closeStatus f =
          (closeStatus f.stream, ⟨0⟩, [PCall.fclose f.stream])) ∧
      (f.stream = 0 → CFile.reset closeStatus f = (0, f, [])) ∧
      (g.m_stream ≠ 0 →
        cfile.reset closeStatus g =
          (closeStatus g.m_stream, ⟨0⟩, [PCall.fclose g.m_stream])) ∧
      (g.m_stream = 0 → cfile.reset closeStatus g = (0, g, [])) := by
  intro closeStatus f g
  refine ⟨?_, ?_, ?_, ?_⟩
  · intro h; simp [CFile.reset, h]
  · intro h; simp [CFile.reset, h]
  · intro h; simp [cfile.reset, h]
  · intro h; simp [cfile.reset, h]

/-- Witness for C4: with a platform oracle reporting failure status `-1`,
`reset()` on an instance holding handle 7 closes it, empties the instance
and surfaces `-1`; `reset()` on an empty instance makes no platform call
and returns 0. -/
theorem reset_close_idempotent_witness :
    CFile.reset (fun _ => -1) ⟨7⟩ = (-1, ⟨0⟩, [PCall.fclose 7]) ∧
    cfile.reset (fun _ => -1) ⟨0⟩ = (0, ⟨0⟩, []) :=
  ⟨(reset_close_idempotent (fun _ => -1) ⟨7⟩ ⟨0⟩).1 (by decide),
   (reset_close_idempotent (fun _ => -1) ⟨7⟩ ⟨0⟩).2.2.2 rfl⟩

/-- C5: destroying a non-empty instance performs exactly one platform close
call, on the held handle (the status is discarded: the destructor returns
nothing); destroying an empty instance performs zero platform calls — in
both implementations. -/
theorem destructor_close_count :
    ∀ (f : CFile) (g : cfile),
      (f.stream ≠ 0 → CFile.destruct f = [PCall.fclose f.stream]) ∧
      (f.stream = 0 → CFile.destruct f = []) ∧
      (g.m_stream ≠ 0 → cfile.destruct g = [PCall.fclose g.m_stream]) ∧
      (g.m_stream = 0 → cfile.destruct g = []) := by
  intro f g
  refine ⟨?_, ?_, ?_, ?_⟩
  · intro h; simp [CFile.destruct, h]
  · intro h; simp [CFile.destruct, h]
  · intro h; simp [cfile.destruct, h]
  · intro h; simp [cfile.destruct, h]

/-- Witness for C5: destroying an instance holding handle 7 closes exactly
handle 7; destroying an empty instance closes nothing. -/
theorem destructor_close_count_witness :
    CFile.destruct ⟨7⟩ = [PCall.fclose 7] ∧ cfile.destruct ⟨0⟩ = [] :=
  ⟨(destructor_close_count ⟨7⟩ ⟨0⟩).1 (by decide),
   (destructor_close_count ⟨7⟩ ⟨0⟩).2.2.2 rfl⟩

/-- C9: after any close operation — member `fclose()`, or `reset()` on any
instance — the instance is empty, for every platform close-status oracle:
a non-zero (failure) close status never leaves the handle retained, in
either implementation. -/
theorem close_always_empties :
    ∀ (closeStatus : Nat → Int) (f : CFile) (g : cfile),
      (CFile.fclose closeStatus f).2.1.stream = 0 ∧
      (CFile.reset closeStatus f).2.1.stream = 0 ∧
      (cfile.fclose closeStatus g).2.1.m_stream = 0 ∧
      (cfile.reset closeStatus g).2.1.m_stream = 0 := by
  intro closeStatus f g
  refine ⟨rfl, ?_, rfl, ?_⟩
  · by_cases h : f.stream = 0 <;> simp [CFile.reset, h]
  · by_cases h : g.m_stream = 0 <;> simp [cfile.reset, h]

/-- C10: the member `fopen` asserts that the instance is empty: invoked on a
non-empty instance it triggers the contract-violation trap (checks enabled)
before any platform call, so an owned handle is never silently overwritten;
on an empty instance it proceeds, performing exactly the platform open —
in both implementations. -/
theorem fopen_requires_empty :
    ∀ (popen : String → String → Nat) (filename access : String)
      (f : CFile) (g : cfile),
      (f.stream ≠ 0 → CFile.fopen popen filename access f = Res.assertFail) ∧
      (f.stream = 0 → CFile.fopen popen filename access f =
        Res.ok [PCall.fopen filename access] ⟨popen filename access⟩) ∧
      (g.m_stream ≠ 0 → cfile.fopen popen filename access g = Res.assertFail) ∧
      (g.m_stream = 0 → cfile.fopen popen filename access g =
        Res.ok [PCall.fopen filename access] ⟨popen filename access⟩) := by
  intro popen filename access f g
  refine ⟨?_, ?_, ?_, ?_⟩
  · intro h; simp [CFile.fopen, h]
  · intro h; simp [CFile.fopen, h]
  · intro h; simp [cfile.fopen, h]
  · intro h; simp [cfile.fopen, h]

/-- Witness for C10: `fopen` on an instance holding handle 7 traps; on an
empty instance it opens and installs the platform's stream (42 here). -/
theorem fopen_requires_empty_witness :
    CFile.fopen (fun _ _ => 42) "f.txt" "r" ⟨7⟩ = Res.assertFail ∧
    cfile.fopen (fun _ _ => 42) "f.txt" "r" ⟨0⟩ =
      Res.ok [PCall.fopen "f.txt" "r"] ⟨42⟩ :=
  ⟨(fopen_requires_empty (fun _ _ => 42) "f.txt" "r" ⟨7⟩ ⟨0⟩).1 (by decide),
   (fopen_requires_empty (fun _ _ => 42) "f.txt" "r" ⟨7⟩ ⟨0⟩).2.2.2 rfl⟩

/-- C6 counterexample: the claim says every pass-through I/O operation
invoked on an empty instance triggers the contract-violation mechanism
rather than proceeding with the sentinel handle.  On the empty instance,
`CFile::fread`, `cfile::fgetc` and `cfile::fputc` do not trap: each
proceeds and passes the sentinel handle `0` to the platform primitive
(there is no `assert` in any pass-through I/O member). -/
theorem io_on_empty_asserts_counterexample :
    CFile.fread (fun _ _ _ => 0) 1 4 ⟨0⟩ ≠ Res.assertFail ∧
    CFile.fread (fun _ _ _ => 0) 1 4 ⟨0⟩ = Res.ok [PCall.fread 1 4 0] 0 ∧
    cfile.fgetc (fun _ => -1) ⟨0⟩ ≠ Res.assertFail ∧
    cfile.fgetc (fun _ => -1) ⟨0⟩ = Res.ok [PCall.fgetc 0] (-1) ∧
    cfile.fputc (fun c _ => c) 65 ⟨0⟩ ≠ Res.assertFail ∧
    cfile.fputc (fun c _ => c) 65 ⟨0⟩ = Res.ok [PCall.fputc 65 0] 65 := by
  refine ⟨by decide, rfl, by decide, rfl, by decide, rfl⟩

/-- C6 amended: the pass-through I/O operations perform no emptiness check
at all — on every instance, empty included, they never trigger the
contract-violation mechanism and forward the instance's current handle
(the sentinel, when empty) directly to the platform primitive. -/
theorem io_passthrough_unchecked :
    ∀ (pfread : Nat → Nat → Nat → Nat) (pfgetc : Nat → Int)
      (pfputc : Int → Nat → Int) (size count : Nat) (character : Int)
      (f : CFile) (g : cfile),
      CFile.fread pfread size count f ≠ Res.assertFail ∧
      CFile.fread pfread size count f =
        Res.ok [PCall.fread size count f.stream] (pfread size count f.stream) ∧
      cfile.fgetc pfgetc g ≠ Res.assertFail ∧
      cfile.fgetc pfgetc g = Res.ok [PCall.fgetc g.m_stream] (pfgetc g.m_stream) ∧
      cfile.fputc pfputc character g ≠ Res.assertFail ∧
      cfile.fputc pfputc character g =
        Res.ok [PCall.fputc character g.m_stream]
          (pfputc character g.m_stream) := by
  intro pfread pfgetc pfputc size count character f g
  refine ⟨fun h => Res.noConfusion h, rfl, fun h => Res.noConfusion h, rfl,
    fun h => Res.noConfusion h, rfl⟩

/-- C7 counterexample: the claim says adopting the sentinel handle is
disallowed on every adoption path, so that an empty instance never arises
from adoption.  The `FILE*` adoption paths accept the runtime null handle
unchecked: adopting `0` through the adopting constructor, or installing `0`
through `reset(FILE*)`, is not rejected and yields an empty instance (only
the `nullptr`-literal overloads are deleted, a compile-time-only check). -/
theorem adopt_sentinel_counterexample :
    (CFile.ofHandle 0).stream = 0 ∧
    (cfile.ofHandle 0).m_stream = 0 ∧
    (CFile.resetPtr (fun _ => 0) 0 ⟨0⟩).2.1.stream = 0 ∧
    (cfile.resetPtr (fun _ => 0) 0 ⟨0⟩).2.1.m_stream = 0 := by
  refine ⟨rfl, rfl, by decide, by decide⟩

/-- C7 amended: adopting the sentinel is rejected only at compile time for
the null-pointer-literal overloads (`CFile(nullptr_t)` and
`reset(nullptr_t)` are deleted); the `FILE*` adoption paths store any
runtime handle value unchanged and unchecked, so adopting a runtime
sentinel handle yields an empty instance — emptiness can also arise from
adoption, in both implementations. -/
theorem adopt_stores_handle_unchecked :
    ∀ (h : Nat) (closeStatus : Nat → Int) (f : CFile) (g : cfile),
      (CFile.ofHandle h).stream = h ∧
      ((CFile.ofHandle h).stream = 0 ↔ h = 0) ∧
      (CFile.resetPtr closeStatus h f).2.1.stream = h ∧
      (cfile.ofHandle h).m_stream = h ∧
      ((cfile.ofHandle h).m_stream = 0 ↔ h = 0) ∧
      (cfile.resetPtr closeStatus h g).2.1.m_stream = h := by
  intro h closeStatus f g
  refine ⟨rfl, Iff.rfl, ?_, rfl, Iff.rfl, ?_⟩
  · by_cases hf : f.stream = 0 <;> simp [CFile.resetPtr, hf]
  · by_cases hg : g.m_stream = 0 <;> simp [cfile.resetPtr, hg]

/-- C8 counterexample: the two implementations are not behaviorally
equivalent at default construction, one of the ownership operations the
claim includes.  `CFile`'s default constructor zero-initializes its member
(`std::FILE *stream{}`, CFile.hpp line 28), so a default-constructed
`CFile` is always empty; `cfile`'s defaulted constructor leaves
`std::FILE *m_stream` (cfile.hpp line 28, no initializer) indeterminate.
With storage contents 7, the default-constructed `cfile` holds handle 7
and compares non-empty while the default-constructed `CFile` is empty. -/
theorem default_ctor_divergence_counterexample :
    CFile.mkDefault.stream = 0 ∧
    (cfile.mkDefault 7).m_stream = 7 ∧
    (cfile.mkDefault 7).m_stream ≠ CFile.mkDefault.stream ∧
    cfile.eqNullptr (cfile.mkDefault 7) = false ∧
    CFile.eqNullptr CFile.mkDefault = true := by
  refine ⟨rfl, rfl, by decide, by decide, by decide⟩

/-- C8 amended: the two shipped implementations realize the identical
design in everything except default construction: their mode-translation
functions agree on every flag value, and every other ownership operation
the design names — adoption, move construction, move assignment, release,
reset (both forms), member close, destruction, and the emptiness
comparison — induces the same state transition, the same returned value
and the same platform calls in both classes, on corresponding states (a
`cfile` whose `m_stream` equals the `CFile`'s `stream`).  Default
construction differs: `CFile` zero-initializes its member, so the
instance is empty, while `cfile`'s defaulted constructor leaves the
member at the storage's indeterminate prior contents. -/
theorem cfile_CFile_equivalent_except_default :
    CFile.mkDefault.stream = 0 ∧
    (∀ g : Nat, (cfile.mkDefault g).m_stream = g) ∧
    (∀ m : Nat, CFile.to_cstring m = cfile.to_access_mode_string m) ∧
    (∀ h : Nat, (CFile.ofHandle h).stream = (cfile.ofHandle h).m_stream) ∧
    (∀ f : CFile,
      (CFile.moveCtor f).1.stream = (cfile.moveCtor ⟨f.stream⟩).1.m_stream ∧
      (CFile.moveCtor f).2.stream = (cfile.moveCtor ⟨f.stream⟩).2.m_stream) ∧
    (∀ a b : CFile,
      (CFile.moveAssign a b).1.stream =
        (cfile.moveAssign ⟨a.stream⟩ ⟨b.stream⟩).1.m_stream ∧
      (CFile.moveAssign a b).2.1.stream =
        (cfile.moveAssign ⟨a.stream⟩ ⟨b.stream⟩).2.1.m_stream ∧
      (CFile.moveAssign a b).2.2 =
        (cfile.moveAssign ⟨a.stream⟩ ⟨b.stream⟩).2.2) ∧
    (∀ f : CFile, CFile.destruct f = cfile.destruct ⟨f.stream⟩) ∧
    (∀ (closeStatus : Nat → Int) (f : CFile),
      (CFile.reset closeStatus f).1 = (cfile.reset closeStatus ⟨f.stream⟩).1 ∧
      (CFile.reset closeStatus f).2.1.stream =
        (cfile.reset closeStatus ⟨f.stream⟩).2.1.m_stream ∧
      (CFile.reset closeStatus f).2.2 = (cfile.reset closeStatus ⟨f.stream⟩).2.2) ∧
    (∀ (closeStatus : Nat → Int) (h : Nat) (f : CFile),
      (CFile.resetPtr closeStatus h f).1 =
        (cfile.resetPtr closeStatus h ⟨f.stream⟩).1 ∧
      (CFile.resetPtr closeStatus h f).2.1.stream =
        (cfile.resetPtr closeStatus h ⟨f.stream⟩).2.1.m_stream ∧
      (CFile.resetPtr closeStatus h f).2.2 =
        (cfile.resetPtr closeStatus h ⟨f.stream⟩).2.2) ∧
    (∀ f : CFile,
      (CFile.release f).1 = (cfile.release ⟨f.stream⟩).1 ∧
      (CFile.release f).2.1.stream = (cfile.release ⟨f.stream⟩).2.1.m_stream ∧
      (CFile.release f).2.2 = (cfile.release ⟨f.stream⟩).2.2) ∧
    (∀ (closeStatus : Nat → Int) (f : CFile),
      (CFile.fclose closeStatus f).1 = (cfile.fclose closeStatus ⟨f.stream⟩).1 ∧
      (CFile.fclose closeStatus f).2.1.stream =
        (cfile.fclose closeStatus ⟨f.stream⟩).2.1.m_stream ∧
      (CFile.fclose closeStatus f).2.2 =
        (cfile.fclose closeStatus ⟨f.stream⟩).2.2) ∧
    (∀ f : CFile, CFile.eqNullptr f = cfile.eqNullptr ⟨f.stream⟩) := by
  refine ⟨rfl, fun g => rfl, fun m => rfl, fun h => rfl, fun f => ⟨rfl, rfl⟩,
    fun a b => ⟨rfl, rfl, rfl⟩, fun f => rfl, ?_, ?_, fun f => ⟨rfl, rfl, rfl⟩,
    fun closeStatus f => ⟨rfl, rfl, rfl⟩, fun f => rfl⟩
  · intro closeStatus f
    by_cases h : f.stream = 0 <;> simp [CFile.reset, cfile.reset, h]
  · intro closeStatus h f
    by_cases hf : f.stream = 0 <;> simp [CFile.resetPtr, cfile.resetPtr, hf]
